import Mathlib

/-!
Shallow embedding of the OAuth token lifecycle manager of
`src/auth/auth-manager.ts` (class `AuthManager`) and `src/auth/types.ts`.

The manager's externally visible state is an in-memory cached client
(`authClient`) plus the filesystem holding the token file and credential
files.  External effects — the provider's token-refresh call, the
interactive OAuth flow, and the provider's revoke call — are modelled by
an `Oracle` supplying their outcomes; each top-level operation also
returns a `Trace` counting how many refresh calls and interactive-flow
invocations it performed.

JavaScript truthiness of the optional string / number fields is modelled
explicitly (`strTruthy`, `natTruthy`): `undefined`, the empty string and
the number `0` are falsy.
-/

namespace YTAuth

/-- In-memory OAuth credentials carried by a client (the
`auth.credentials` object): every field may be absent. -/
structure Credentials where
  access_token : Option String := none
  refresh_token : Option String := none
  expiry_date : Option Nat := none
deriving Repr, DecidableEq

/-- An `OAuth2Client` as used by the manager: client identity plus its
current credentials. -/
structure OAuth2Client where
  client_id : String := ""
  client_secret : String := ""
  redirect_uri : String := ""
  credentials : Credentials := {}
deriving Repr, DecidableEq

/-- `OAuthClientConfig` from `types.ts`. -/
structure OAuthClientConfig where
  client_id : String
  project_id : String := ""
  auth_uri : String := ""
  token_uri : String := ""
  auth_provider_x509_cert_url : String := ""
  client_secret : String
  redirect_uris : List String
deriving Repr, DecidableEq

/-- `AuthConfig` from `types.ts`: a credentials file holds a "web" or an
"installed" client configuration (or both, or neither). -/
structure AuthConfig where
  web : Option OAuthClientConfig := none
  installed : Option OAuthClientConfig := none
deriving Repr, DecidableEq

/-- `TokenData` from `types.ts`, as it sits in the token file.  The
TypeScript interface declares `refresh_token : string` required, but the
file is written from `client.credentials.refresh_token!` and
`JSON.stringify` drops an `undefined` field, so on disk it may be absent:
we model it as `Option String`. -/
structure TokenData where
  type : String
  client_id : String
  client_secret : String
  refresh_token : Option String
  access_token : Option String
  expiry_date : Option Nat
deriving Repr, DecidableEq

/-- Errors thrown by the auth manager.  `TokenExpiredError` extends
`AuthenticationError` in the source; both constructors count as
authentication errors for `instanceof AuthenticationError`. -/
inductive AuthError where
  | AuthenticationError (msg : String)
  | TokenExpiredError (msg : String)
deriving Repr, DecidableEq

/-- Content of a file: a parsed token record, a parsed credentials
record, or content that fails to parse as the expected shape (a JSON
value of the wrong shape fails either at `JSON.parse` or at
`getOAuthConfig`; both surface as an error, which we collapse into
`malformed`). -/
inductive FileContent where
  | tokenJson (t : TokenData)
  | credJson (c : AuthConfig)
  | malformed
deriving Repr, DecidableEq

/-- The filesystem: an association list from paths to file contents;
the first binding for a path wins. -/
abbrev FS := List (String × FileContent)

/-- Read a file (`fs.readFile` + parse): first binding for the path. -/
def fsRead : FS → String → Option FileContent
  | [], _ => none
  | (q, c) :: fs, p => if p == q then some c else fsRead fs p

/-- Whole-file write (`fs.writeFile`): prepend a fresh binding. -/
def fsWrite (fs : FS) (p : String) (c : FileContent) : FS :=
  (p, c) :: fs

/-- Delete a file (`fs.unlink`): drop every binding for the path. -/
def fsUnlink (fs : FS) (p : String) : FS :=
  fs.filter (fun e => e.1 != p)

/-- Existence probe (`fs.access`). -/
def fsExists (fs : FS) (p : String) : Bool :=
  (fsRead fs p).isSome

/-- JavaScript truthiness of an optional string: `undefined` and `""`
are falsy. -/
def strTruthy : Option String → Bool
  | none => false
  | some s => s != ""

/-- JavaScript truthiness of an optional number: `undefined` and `0`
are falsy. -/
def natTruthy : Option Nat → Bool
  | none => false
  | some n => n != 0

/-- The JavaScript expression `x || undefined` on an optional string. -/
def jsStrOrUndef (a : Option String) : Option String :=
  if strTruthy a then a else none

/-- The JavaScript expression `x || undefined` on an optional number. -/
def jsNatOrUndef (a : Option Nat) : Option Nat :=
  if natTruthy a then a else none

/-- The JavaScript expression `x || b` where `x` is an optional
environment string and `b` a string default. -/
def jsOrStr (a : Option String) (b : String) : String :=
  match a with
  | some s => if s == "" then b else s
  | none => b

/-- `path.join` of two components, as far as the embedding needs it. -/
def pathJoin (a b : String) : String := a ++ "/" ++ b

/-- The relevant environment variables (`process.env`), each possibly
unset. -/
structure Env where
  HOME : Option String := none
  USERPROFILE : Option String := none
  YOUTUBE_TOKEN_PATH : Option String := none
  YOUTUBE_CREDENTIALS_PATH : Option String := none
deriving Repr, DecidableEq

/-- The fixed paths computed once by the `AuthManager` constructor,
plus the bundled-credentials path (`path.join(__dirname, '..', '..',
'credentials.json')`, determined by the install location). -/
structure Paths where
  TOKEN_PATH : String
  CREDENTIALS_PATH : String
  bundledPath : String
deriving Repr, DecidableEq

/-- The user directory `path.join(process.env.HOME ||
process.env.USERPROFILE || '.', '.youtube-analytics-mcp')`. -/
def userDir (env : Env) : String :=
  pathJoin (jsOrStr env.HOME (jsOrStr env.USERPROFILE ".")) ".youtube-analytics-mcp"

/-- The `AuthManager` constructor: computes `TOKEN_PATH` and
`CREDENTIALS_PATH` from the environment; `bundled` is the
install-location-dependent bundled credentials path. -/
def mkAuthManager (env : Env) (bundled : String) : Paths :=
  { TOKEN_PATH := jsOrStr env.YOUTUBE_TOKEN_PATH (pathJoin (userDir env) "token.json")
    CREDENTIALS_PATH :=
      jsOrStr env.YOUTUBE_CREDENTIALS_PATH (pathJoin (userDir env) "credentials.json")
    bundledPath := bundled }

/-- The `CredentialsNotFound`-style message thrown when no credentials
file exists at any checked path. -/
def credentialsNotFoundMsg (credPath bundledPath : String) : String :=
  "No credentials found. Checked:\n  1. " ++ credPath ++ "\n  2. " ++ bundledPath ++
    " (bundled)\n\nTo fix: place your Google OAuth credentials JSON at one of these paths, " ++
    "or set YOUTUBE_CREDENTIALS_PATH environment variable."

/-- `resolveCredentialsPath`: probe `CREDENTIALS_PATH` (the env override
if set, else the per-user path — a single primary path), then the
bundled path; fail listing both checked paths. -/
def resolveCredentialsPath (fs : FS) (p : Paths) : Except AuthError String :=
  if fsExists fs p.CREDENTIALS_PATH then .ok p.CREDENTIALS_PATH
  else if fsExists fs p.bundledPath then .ok p.bundledPath
  else .error (.AuthenticationError (credentialsNotFoundMsg p.CREDENTIALS_PATH p.bundledPath))

/-- `getOAuthConfig`: `credentials.web || credentials.installed`, else
throw. -/
def getOAuthConfig (credentials : AuthConfig) : Except AuthError OAuthClientConfig :=
  match credentials.web.orElse (fun _ => credentials.installed) with
  | some config => .ok config
  | none => .error (.AuthenticationError
      "Invalid credentials.json - must contain web or installed key")

/-- Result of the interactive OAuth flow (`authenticate` from
local-auth): a client whose `credentials` may be absent — the source
guards on `if (client.credentials)`. -/
structure FlowClient where
  client_id : String := ""
  client_secret : String := ""
  redirect_uri : String := ""
  credentials : Option Credentials := none
deriving Repr, DecidableEq

/-- The cast `client as unknown as OAuth2Client` applied to a flow
result (absent credentials read back as the empty object). -/
def flowToClient (fc : FlowClient) : OAuth2Client :=
  { client_id := fc.client_id
    client_secret := fc.client_secret
    redirect_uri := fc.redirect_uri
    credentials := fc.credentials.getD {} }

/-- Outcomes of the external calls: the provider's refresh endpoint
(`auth.refreshAccessToken()`, as a function of the current
credentials), the interactive OAuth flow (which throws plain errors,
not `AuthenticationError`s), the provider's revoke endpoint
(`auth.revokeCredentials()`), and whether `fs.unlink` of the token file
fails. -/
structure Oracle where
  refresh : Credentials → Except Unit Credentials
  flow : Except String FlowClient
  revoke : Except Unit Unit
  unlinkFails : Bool := false

/-- Count of external calls performed by one operation. -/
structure Trace where
  refreshCalls : Nat := 0
  flowCalls : Nat := 0
deriving Repr, DecidableEq

/-- Componentwise sum of traces. -/
def tAdd (a b : Trace) : Trace :=
  ⟨a.refreshCalls + b.refreshCalls, a.flowCalls + b.flowCalls⟩

/-- Mutable state of one `AuthManager`: the filesystem and the cached
in-memory client (`this.authClient`). -/
structure AMState where
  fs : FS
  authClient : Option OAuth2Client := none
deriving Repr, DecidableEq

/-- `updateStoredToken`: read the token file, overwrite only
`access_token` and `expiry_date` (each via `x || undefined`), rewrite
the file; any read/parse failure becomes an `AuthenticationError`
without writing. -/
def updateStoredToken (p : Paths) (auth : OAuth2Client) (s : AMState) :
    Except AuthError Unit × AMState :=
  match fsRead s.fs p.TOKEN_PATH with
  | some (.tokenJson tokenData) =>
    let tokenData' := { tokenData with
      access_token := jsStrOrUndef auth.credentials.access_token
      expiry_date := jsNatOrUndef auth.credentials.expiry_date }
    (.ok (), { s with fs := fsWrite s.fs p.TOKEN_PATH (.tokenJson tokenData') })
  | _ => (.error (.AuthenticationError "Failed to update stored token"), s)

/-- `saveToken`: resolve the credentials path, read and parse the
credentials file, extract the client config, and write a fresh token
record.  `refresh_token` is written from
`client.credentials.refresh_token!` — stored as-is, absent if absent —
while `access_token` and `expiry_date` go through `x || undefined`.
Any failure becomes an `AuthenticationError`. -/
def saveToken (p : Paths) (client : OAuth2Client) (s : AMState) :
    Except AuthError Unit × AMState :=
  match resolveCredentialsPath s.fs p with
  | .error _ => (.error (.AuthenticationError "Failed to save token"), s)
  | .ok credentialsPath =>
    match fsRead s.fs credentialsPath with
    | some (.credJson credentials) =>
      match getOAuthConfig credentials with
      | .error _ => (.error (.AuthenticationError "Failed to save token"), s)
      | .ok oauthConfig =>
        let tokenData : TokenData := {
          type := "authorized_user"
          client_id := oauthConfig.client_id
          client_secret := oauthConfig.client_secret
          refresh_token := client.credentials.refresh_token
          access_token := jsStrOrUndef client.credentials.access_token
          expiry_date := jsNatOrUndef client.credentials.expiry_date }
        (.ok (), { s with fs := fsWrite s.fs p.TOKEN_PATH (.tokenJson tokenData) })
    | _ => (.error (.AuthenticationError "Failed to save token"), s)

/-- `refreshTokenIfNeeded`: if the expiry is falsy (absent or `0`) or at
most five minutes after `now`, a refresh is required; a falsy
`refresh_token` throws `TokenExpiredError` before any provider call;
otherwise the provider refresh runs once and, on success, the new
credentials are set on the client and `updateStoredToken` persists the
volatile fields.  The surrounding catch turns every failure into
`TokenExpiredError` after clearing `this.authClient`.  On success the
client object was mutated in place through the alias held in
`this.authClient`; callers re-cache the returned client. -/
def refreshTokenIfNeeded (p : Paths) (orc : Oracle) (now : Nat) (auth : OAuth2Client)
    (s : AMState) : Except AuthError OAuth2Client × AMState × Trace :=
  let expiryDate := auth.credentials.expiry_date
  let fiveMinutesFromNow := now + 5 * 60 * 1000
  if !natTruthy expiryDate || decide (expiryDate.getD 0 ≤ fiveMinutesFromNow) then
    if !strTruthy auth.credentials.refresh_token then
      (.error (.TokenExpiredError "Token refresh failed - please re-authenticate"),
        { s with authClient := none }, ⟨0, 0⟩)
    else
      match orc.refresh auth.credentials with
      | .error _ =>
        (.error (.TokenExpiredError "Token refresh failed - please re-authenticate"),
          { s with authClient := none }, ⟨1, 0⟩)
      | .ok newCredentials =>
        let auth' := { auth with credentials := newCredentials }
        match updateStoredToken p auth' s with
        | (.ok _, s1) => (.ok auth', s1, ⟨1, 0⟩)
        | (.error _, _) =>
          (.error (.TokenExpiredError "Token refresh failed - please re-authenticate"),
            { s with authClient := none }, ⟨1, 0⟩)
  else
    (.ok auth, s, ⟨0, 0⟩)

/-- `authenticate`: resolve credentials (a failure — an
`AuthenticationError` — is rethrown unmodified by the
`instanceof AuthenticationError` check); run the interactive flow (a
flow exception is wrapped as `Authentication failed: ...`); if the
resulting client carries credentials, cache it, save the token (a save
failure is an `AuthenticationError`, rethrown unmodified, with the
handle already cached), and return it; otherwise return
`this.authClient || client` without saving or caching. -/
def authenticate (p : Paths) (orc : Oracle) (s : AMState) :
    Except AuthError OAuth2Client × AMState × Trace :=
  match resolveCredentialsPath s.fs p with
  | .error e => (.error e, s, ⟨0, 0⟩)
  | .ok _ =>
    match orc.flow with
    | .error msg =>
      (.error (.AuthenticationError ("Authentication failed: " ++ msg)), s, ⟨0, 1⟩)
    | .ok client =>
      match client.credentials with
      | some _ =>
        let ac := flowToClient client
        let s1 := { s with authClient := some ac }
        match saveToken p ac s1 with
        | (.ok _, s2) => (.ok ac, s2, ⟨0, 1⟩)
        | (.error e, s2) => (.error e, s2, ⟨0, 1⟩)
      | none => (.ok (s.authClient.getD (flowToClient client)), s, ⟨0, 1⟩)

/-- The client reconstructed from the client config (first redirect
URI) and the stored token, as built by `getAuthClient`'s disk path:
`new OAuth2Client(id, secret, redirect)` followed by
`setCredentials(...)` from the token record. -/
def clientFromDisk (oauthConfig : OAuthClientConfig) (tokenData : TokenData) : OAuth2Client :=
  { client_id := oauthConfig.client_id
    client_secret := oauthConfig.client_secret
    redirect_uri := oauthConfig.redirect_uris.headD ""
    credentials := {
      access_token := tokenData.access_token
      refresh_token := tokenData.refresh_token
      expiry_date := tokenData.expiry_date } }

/-- The body of `getAuthClient`'s outer try/catch: load the token file,
resolve and parse the credentials file, build a client from the client
config and the stored token, cache it, and run `refreshTokenIfNeeded`
(re-caching the refreshed client on success). -/
def loadFromDisk (p : Paths) (orc : Oracle) (now : Nat) (s : AMState) :
    Except AuthError OAuth2Client × AMState × Trace :=
  match fsRead s.fs p.TOKEN_PATH with
  | some (.tokenJson tokenData) =>
    match resolveCredentialsPath s.fs p with
    | .ok credentialsPath =>
      match fsRead s.fs credentialsPath with
      | some (.credJson credentials) =>
        match getOAuthConfig credentials with
        | .ok oauthConfig =>
          let client : OAuth2Client := clientFromDisk oauthConfig tokenData
          match refreshTokenIfNeeded p orc now client { s with authClient := some client } with
          | (.ok client1, s1, t) => (.ok client1, { s1 with authClient := some client1 }, t)
          | (.error e, s1, t) => (.error e, s1, t)
        | .error e => (.error e, s, ⟨0, 0⟩)
      | _ => (.error (.AuthenticationError "Failed to parse credentials file"), s, ⟨0, 0⟩)
    | .error e => (.error e, s, ⟨0, 0⟩)
  | _ => (.error (.AuthenticationError "Failed to read token file"), s, ⟨0, 0⟩)

/-- The tail of `getAuthClient` once the cached-client fast path is
unavailable or has failed: try the disk path; on any failure clear the
cache and fall back to `authenticate`, whose outcome (success or error)
is the outcome of `getAuthClient`. -/
def getAuthClientFallback (p : Paths) (orc : Oracle) (now : Nat) (s : AMState) (t0 : Trace) :
    Except AuthError OAuth2Client × AMState × Trace :=
  match loadFromDisk p orc now s with
  | (.ok c, s1, t1) => (.ok c, s1, tAdd t0 t1)
  | (.error _, s1, t1) =>
    match authenticate p orc { s1 with authClient := none } with
    | (r, s2, t2) => (r, s2, tAdd t0 (tAdd t1 t2))

/-- `getAuthClient`: if a cached client exists, try
`refreshTokenIfNeeded` on it and return it on success (the object was
mutated in place, so the cache holds the refreshed client); on failure
clear the cache and fall through to the disk path / `authenticate`
chain. -/
def getAuthClient (p : Paths) (orc : Oracle) (now : Nat) (s : AMState) :
    Except AuthError OAuth2Client × AMState × Trace :=
  match s.authClient with
  | some cached =>
    match refreshTokenIfNeeded p orc now cached s with
    | (.ok c, s1, t1) => (.ok c, { s1 with authClient := some c }, t1)
    | (.error _, s1, t1) => getAuthClientFallback p orc now { s1 with authClient := none } t1
  | none => getAuthClientFallback p orc now s ⟨0, 0⟩

/-- `revokeToken`: obtain a client via `getAuthClient`, call the
provider's revoke; only after a successful revoke is the cached client
cleared and the token file unlinked (an unlink failure is logged and
swallowed).  A failure of `getAuthClient` or of the revoke call is
wrapped as `AuthenticationError` — skipping the clearing of the
cache. -/
def revokeToken (p : Paths) (orc : Oracle) (now : Nat) (s : AMState) :
    Except AuthError Unit × AMState × Trace :=
  match getAuthClient p orc now s with
  | (.error _, s1, t1) =>
    (.error (.AuthenticationError "Failed to revoke token"), s1, t1)
  | (.ok _, s1, t1) =>
    match orc.revoke with
    | .error _ => (.error (.AuthenticationError "Failed to revoke token"), s1, t1)
    | .ok _ =>
      let s2 := { s1 with authClient := none }
      if orc.unlinkFails then (.ok (), s2, t1)
      else (.ok (), { s2 with fs := fsUnlink s2.fs p.TOKEN_PATH }, t1)

/-- `isAuthenticated`: try `getAuthClient`; report whether the client
carries a truthy access token; swallow every failure as `false`. -/
def isAuthenticated (p : Paths) (orc : Oracle) (now : Nat) (s : AMState) :
    Bool × AMState × Trace :=
  match getAuthClient p orc now s with
  | (.ok auth, s1, t1) => (strTruthy auth.credentials.access_token, s1, t1)
  | (.error _, s1, t1) => (false, s1, t1)

/-! Helper lemmas shared by several results. -/

/-- Reading a path just written returns the written content. -/
theorem fsRead_fsWrite_self (fs : FS) (p : String) (c : FileContent) :
    fsRead (fsWrite fs p c) p = some c := by
  simp [fsRead, fsWrite]

/-- Reading a path just unlinked returns nothing. -/
theorem fsRead_fsUnlink_self (fs : FS) (p : String) :
    fsRead (fsUnlink fs p) p = none := by
  induction fs with
  | nil => rfl
  | cons e fs ih =>
    rcases e with ⟨a, b⟩
    by_cases h : a = p
    · subst h
      simpa [fsUnlink, List.filter] using ih
    · have h2 : (p == a) = false := by simp [Ne.symm h]
      have h3 : (a == p) = false := by simp [h]
      have h4 : (a != p) = true := by simp [bne, h3]
      simpa [fsUnlink, fsRead, List.filter, h4, h2] using ih

/-- The coercion `x || undefined` is the identity away from the empty
string. -/
theorem jsStrOrUndef_of_ne (a : Option String) (h : a ≠ some "") :
    jsStrOrUndef a = a := by
  cases a with
  | none => rfl
  | some s =>
    have hs : s ≠ "" := by intro h0; exact h (by rw [h0])
    simp [jsStrOrUndef, strTruthy, hs]

/-- The coercion `x || undefined` is the identity away from zero. -/
theorem jsNatOrUndef_of_ne (a : Option Nat) (h : a ≠ some 0) :
    jsNatOrUndef a = a := by
  cases a with
  | none => rfl
  | some n =>
    have hn : n ≠ 0 := by intro h0; exact h (by rw [h0])
    simp [jsNatOrUndef, natTruthy, hn]

/-- A failing `refreshTokenIfNeeded` leaves the filesystem as it was and
clears the cached client, nothing else. -/
theorem refreshTokenIfNeeded_error_state (p : Paths) (orc : Oracle) (now : Nat)
    (auth : OAuth2Client) (s : AMState) (e : AuthError) (s1 : AMState) (t1 : Trace)
    (h : refreshTokenIfNeeded p orc now auth s = (.error e, s1, t1)) :
    s1 = { s with authClient := none } := by
  unfold refreshTokenIfNeeded at h
  dsimp only at h
  split at h
  · split at h
    · exact (congrArg (fun x => x.2.1) h).symm
    · split at h
      · exact (congrArg (fun x => x.2.1) h).symm
      · split at h
        · simp at h
        · exact (congrArg (fun x => x.2.1) h).symm
  · simp at h

/-- The interactive-authentication path never performs a provider
refresh call. -/
theorem authenticate_refreshCalls (p : Paths) (orc : Oracle) (s : AMState) :
    (authenticate p orc s).2.2.refreshCalls = 0 := by
  unfold authenticate
  dsimp only
  split
  · rfl
  · split
    · rfl
    · split
      · split
        · rfl
        · rfl
      · rfl

/-- `saveToken` never touches the cached client. -/
theorem saveToken_authClient (p : Paths) (client : OAuth2Client) (s : AMState) :
    (saveToken p client s).2.authClient = s.authClient := by
  unfold saveToken
  split
  · rfl
  · split
    · split
      · rfl
      · rfl
    · rfl

/-- A successful `saveToken` writes exactly one fresh token record, with
`refresh_token` copied as-is from the client. -/
theorem saveToken_ok_fs (p : Paths) (client : OAuth2Client) (s : AMState)
    (u : Unit) (s2 : AMState) (h : saveToken p client s = (.ok u, s2)) :
    ∃ td : TokenData,
      s2 = { s with fs := fsWrite s.fs p.TOKEN_PATH (.tokenJson td) } ∧
      td.refresh_token = client.credentials.refresh_token := by
  unfold saveToken at h
  split at h
  · simp at h
  · split at h
    · split at h
      · simp at h
      · exact ⟨_, (congrArg (fun x => x.2) h).symm, rfl⟩
    · simp at h

/-- C10 theorem part: behaviour of `getOAuthConfig` and the identity
written by `saveToken`. -/
theorem getOAuthConfig_web_precedence
    (c : AuthConfig) (w : OAuthClientConfig) (p : Paths) (client : OAuth2Client)
    (s : AMState) (cp : String) :
    (c.web = some w → getOAuthConfig c = .ok w) ∧
    (c.web = none → c.installed = none →
      getOAuthConfig c = .error (.AuthenticationError
        "Invalid credentials.json - must contain web or installed key")) ∧
    (resolveCredentialsPath s.fs p = .ok cp →
      fsRead s.fs cp = some (.credJson c) → c.web = some w →
      saveToken p client s = (.ok (), { s with fs := fsWrite s.fs p.TOKEN_PATH (.tokenJson
        { type := "authorized_user", client_id := w.client_id,
          client_secret := w.client_secret,
          refresh_token := client.credentials.refresh_token,
          access_token := jsStrOrUndef client.credentials.access_token,
          expiry_date := jsNatOrUndef client.credentials.expiry_date }) })) := by
  refine ⟨?_, ?_, ?_⟩
  · intro hw
    simp [getOAuthConfig, hw, Option.orElse]
  · intro hw hi
    simp [getOAuthConfig, hw, hi, Option.orElse]
  · intro hres hread hw
    simp [saveToken, hres, hread, getOAuthConfig, hw, Option.orElse]

/-- C7: a handle needing refresh but lacking a truthy refresh token
fails with `TokenExpiredError`, performs no provider refresh call, and
clears the cached client. -/
theorem refreshTokenIfNeeded_no_refresh_token
    (p : Paths) (orc : Oracle) (now : Nat) (auth : OAuth2Client) (s : AMState)
    (hexp : auth.credentials.expiry_date.getD 0 ≤ now + 5 * 60 * 1000)
    (hrt : strTruthy auth.credentials.refresh_token = false) :
    refreshTokenIfNeeded p orc now auth s =
      (.error (.TokenExpiredError "Token refresh failed - please re-authenticate"),
        { s with authClient := none }, ⟨0, 0⟩) := by
  unfold refreshTokenIfNeeded
  simp [hexp, hrt]

/-! Claim C2: the access-field update. -/

/-- Fixture paths for the `updateStoredToken` counterexample. -/
def updateCEPaths : Paths := ⟨"tok", "creds", "bundle"⟩

/-- Fixture token record for the `updateStoredToken` counterexample. -/
def updateCEToken : TokenData :=
  { type := "authorized_user", client_id := "ci", client_secret := "cs",
    refresh_token := some "RT", access_token := some "AT", expiry_date := some 1000 }

/-- Fixture client for the `updateStoredToken` counterexample: its new
access token is the empty string. -/
def updateCEAuth : OAuth2Client :=
  { credentials := { access_token := some "", refresh_token := some "RT",
                     expiry_date := some 2000 } }

/-- Fixture state for the `updateStoredToken` counterexample. -/
def updateCEState : AMState := { fs := [("tok", .tokenJson updateCEToken)] }

/-- C2 counterexample: updating with the access token `""` stores
`access_token` as absent, not as `""`, because of the `x || undefined`
coercion — the stored record is not the prior record with
`access_token` replaced by the given value. -/
theorem updateStoredToken_empty_access_counterexample :
    updateCEAuth.credentials.access_token = some "" ∧
    fsRead (updateStoredToken updateCEPaths updateCEAuth updateCEState).2.fs
        updateCEPaths.TOKEN_PATH =
      some (.tokenJson { updateCEToken with access_token := none, expiry_date := some 2000 }) ∧
    fsRead (updateStoredToken updateCEPaths updateCEAuth updateCEState).2.fs
        updateCEPaths.TOKEN_PATH ≠
      some (.tokenJson { updateCEToken with access_token := some "", expiry_date := some 2000 }) := by
  refine ⟨rfl, by decide, by decide⟩

/-- C2 amended: whenever a token record is readable, the update
rewrites the file changing only `access_token` and `expiry_date` —
each new value stored through the JavaScript coercion
`x || undefined`, so the empty string and `0` become absent — and
leaves `refresh_token`, `client_id`, `client_secret` and `type`
untouched; for a new access token that is not the empty string and an
expiry that is not `0`, a subsequent load returns exactly the prior
record with `access_token` replaced by `a` and `expiry_date` replaced
by `e`; when no readable token record exists the update fails without
writing. -/
theorem updateStoredToken_frame (p : Paths) (auth : OAuth2Client) (s : AMState) :
    (∀ T, fsRead s.fs p.TOKEN_PATH = some (.tokenJson T) →
      updateStoredToken p auth s = (.ok (), { s with fs := fsWrite s.fs p.TOKEN_PATH (.tokenJson { T with access_token := jsStrOrUndef auth.credentials.access_token, expiry_date := jsNatOrUndef auth.credentials.expiry_date }) }) ∧
      fsRead (updateStoredToken p auth s).2.fs p.TOKEN_PATH =
        some (.tokenJson { T with access_token := jsStrOrUndef auth.credentials.access_token, expiry_date := jsNatOrUndef auth.credentials.expiry_date }) ∧
      (auth.credentials.access_token ≠ some "" →
        auth.credentials.expiry_date ≠ some 0 →
        fsRead (updateStoredToken p auth s).2.fs p.TOKEN_PATH =
          some (.tokenJson { T with access_token := auth.credentials.access_token, expiry_date := auth.credentials.expiry_date }))) ∧
    ((∀ T, fsRead s.fs p.TOKEN_PATH ≠ some (.tokenJson T)) →
      updateStoredToken p auth s =
        (.error (.AuthenticationError "Failed to update stored token"), s)) := by
  constructor
  · intro T hT
    refine ⟨?_, ?_, ?_⟩
    · simp [updateStoredToken, hT]
    · simp [updateStoredToken, hT, fsRead_fsWrite_self]
    · intro ha he
      have h1 := jsStrOrUndef_of_ne _ ha
      have h2 := jsNatOrUndef_of_ne _ he
      simp [updateStoredToken, hT, h1, h2, fsRead_fsWrite_self]
  · intro hT
    unfold updateStoredToken
    split
    · next t heq => exact absurd heq (hT t)
    · rfl

/-- Witness for the amended C2 theorem at a concrete record: the full
characterization and the non-degenerate round-trip. -/
theorem updateStoredToken_frame_witness :
    fsRead updateCEState.fs updateCEPaths.TOKEN_PATH =
      some (.tokenJson updateCEToken) ∧
    updateStoredToken updateCEPaths { credentials := { access_token := some "AT2", refresh_token := some "RT", expiry_date := some 9000 } } updateCEState =
      (.ok (), { updateCEState with fs := fsWrite updateCEState.fs "tok" (.tokenJson { updateCEToken with access_token := some "AT2", expiry_date := some 9000 }) }) ∧
    fsRead (updateStoredToken updateCEPaths { credentials := { access_token := some "AT2", refresh_token := some "RT", expiry_date := some 9000 } } updateCEState).2.fs
        updateCEPaths.TOKEN_PATH =
      some (.tokenJson { updateCEToken with access_token := some "AT2", expiry_date := some 9000 }) := by
  have h := (updateStoredToken_frame updateCEPaths { credentials := { access_token := some "AT2", refresh_token := some "RT", expiry_date := some 9000 } } updateCEState).1
    updateCEToken rfl
  exact ⟨rfl, h.1, h.2.2 (by decide) (by decide)⟩

/-! Claim C4: credential resolution order. -/

/-- Fixture environment for the credential-resolution counterexample:
the override variable is set. -/
def credCEEnv : Env :=
  { HOME := some "/home/u", YOUTUBE_CREDENTIALS_PATH := some "/override/credentials.json" }

/-- Fixture filesystem for the credential-resolution counterexample:
only the per-user credentials file exists. -/
def credCEFS : FS := [("/home/u/.youtube-analytics-mcp/credentials.json", .credJson {})]

/-- Fixture manager for the credential-resolution counterexample. -/
def credCEPaths : Paths := mkAuthManager credCEEnv "/bundle/credentials.json"

/-- C4 counterexample: with the override variable set to a missing path
while the per-user credentials file exists (and the bundled file does
not), resolution fails instead of returning the existing per-user path:
the per-user path is never probed once the override is set. -/
theorem resolveCredentialsPath_skips_user_path :
    fsExists credCEFS (pathJoin (userDir credCEEnv) "credentials.json") = true ∧
    resolveCredentialsPath credCEFS credCEPaths =
      .error (.AuthenticationError
        (credentialsNotFoundMsg "/override/credentials.json" "/bundle/credentials.json")) := by
  refine ⟨by decide, rfl⟩

/-- C4 amended: the constructor picks a single primary path — the
override variable when set and non-empty, else the per-user path — and
resolution probes the primary path then the bundled path, returning
the first that exists; if neither exists it fails with a message
listing both checked paths and naming the override variable. -/
theorem resolveCredentialsPath_order (env : Env) (bundled : String) (fs : FS) :
    (strTruthy env.YOUTUBE_CREDENTIALS_PATH = true →
      (mkAuthManager env bundled).CREDENTIALS_PATH = env.YOUTUBE_CREDENTIALS_PATH.getD "") ∧
    (strTruthy env.YOUTUBE_CREDENTIALS_PATH = false →
      (mkAuthManager env bundled).CREDENTIALS_PATH = pathJoin (userDir env) "credentials.json") ∧
    ((mkAuthManager env bundled).bundledPath = bundled) ∧
    (∀ p : Paths, fsExists fs p.CREDENTIALS_PATH = true →
      resolveCredentialsPath fs p = .ok p.CREDENTIALS_PATH) ∧
    (∀ p : Paths, fsExists fs p.CREDENTIALS_PATH = false → fsExists fs p.bundledPath = true →
      resolveCredentialsPath fs p = .ok p.bundledPath) ∧
    (∀ p : Paths, fsExists fs p.CREDENTIALS_PATH = false → fsExists fs p.bundledPath = false →
      resolveCredentialsPath fs p = .error (.AuthenticationError
        (credentialsNotFoundMsg p.CREDENTIALS_PATH p.bundledPath))) := by
  refine ⟨?_, ?_, rfl, ?_, ?_, ?_⟩
  · intro h
    cases henv : env.YOUTUBE_CREDENTIALS_PATH with
    | none => rw [henv] at h; cases h
    | some v =>
      rw [henv] at h
      have hv : v ≠ "" := by simpa [strTruthy] using h
      simp [mkAuthManager, jsOrStr, henv, hv]
  · intro h
    cases henv : env.YOUTUBE_CREDENTIALS_PATH with
    | none => simp [mkAuthManager, jsOrStr, henv]
    | some v =>
      rw [henv] at h
      have hv : v = "" := by simpa [strTruthy] using h
      simp [mkAuthManager, jsOrStr, henv, hv]
  · intro p h
    simp [resolveCredentialsPath, h]
  · intro p h1 h2
    simp [resolveCredentialsPath, h1, h2]
  · intro p h1 h2
    simp [resolveCredentialsPath, h1, h2]

/-- Witness for the amended C4 theorem at the counterexample fixtures. -/
theorem resolveCredentialsPath_order_witness :
    strTruthy credCEEnv.YOUTUBE_CREDENTIALS_PATH = true ∧
    credCEPaths.CREDENTIALS_PATH = credCEEnv.YOUTUBE_CREDENTIALS_PATH.getD "" := by
  refine ⟨by decide, ?_⟩
  exact (resolveCredentialsPath_order credCEEnv "/bundle/credentials.json" credCEFS).1
    (by decide)

/-! Claim C9: `isAuthenticated` swallows every failure. -/

/-- C9: `isAuthenticated` returns `true` exactly when `getAuthClient`
yields a client with a truthy access token, and returns `false` — it
cannot fail — in particular when neither a credential file nor a token
file exists. -/
theorem isAuthenticated_never_fails (p : Paths) (orc : Oracle) (now : Nat) (s : AMState) :
    ((isAuthenticated p orc now s).1 = true ↔
      ∃ c s1 t1, getAuthClient p orc now s = (.ok c, s1, t1) ∧
        strTruthy c.credentials.access_token = true) ∧
    (s.authClient = none → s.fs = [] → (isAuthenticated p orc now s).1 = false) := by
  constructor
  · rcases hg : getAuthClient p orc now s with ⟨r, s1, t1⟩
    cases r with
    | ok a =>
      unfold isAuthenticated
      rw [hg]
      constructor
      · intro h
        exact ⟨a, s1, t1, rfl, h⟩
      · rintro ⟨c, s2, t2, hc, hac⟩
        injection hc with h1 h2
        injection h1 with h3
        rw [h3]
        exact hac
    | error e =>
      unfold isAuthenticated
      rw [hg]
      constructor
      · intro h; cases h
      · rintro ⟨c, s2, t2, hc, hac⟩
        simp at hc
  · intro hac hfs
    obtain ⟨fs0, ac0⟩ := s
    dsimp only at hac hfs
    subst hac
    subst hfs
    rfl

/-! Claim C1: the refresh policy of `getAuthClient`. -/

/-- Whenever the refresh branch is entered with a truthy refresh token,
exactly one provider refresh call happens, whatever its outcome. -/
theorem refreshTokenIfNeeded_one_call (p : Paths) (orc : Oracle) (now : Nat)
    (auth : OAuth2Client) (s : AMState)
    (hc : auth.credentials.expiry_date.getD 0 ≤ now + 5 * 60 * 1000)
    (ht : strTruthy auth.credentials.refresh_token = true) :
    (refreshTokenIfNeeded p orc now auth s).2.2 = ⟨1, 0⟩ := by
  unfold refreshTokenIfNeeded
  dsimp only
  split
  · split
    · next hin =>
      exfalso
      rw [ht] at hin
      simp at hin
    · split
      · rfl
      · split
        · rfl
        · rfl
  · next hcond =>
    exfalso
    apply hcond
    simp [hc]

/-- C1: starting with no cached client and a readable token file and
credentials file, a token whose expiry is strictly more than five
minutes ahead yields no refresh call and the persisted client
(access token included) is returned; a token whose expiry is absent or
at most five minutes ahead (and carrying a truthy refresh token)
yields exactly one refresh call. -/
theorem getAuthClient_refresh_policy
    (p : Paths) (orc : Oracle) (now : Nat) (s : AMState) (T : TokenData)
    (c : AuthConfig) (cfg : OAuthClientConfig) (cp : String)
    (hcache : s.authClient = none)
    (htok : fsRead s.fs p.TOKEN_PATH = some (.tokenJson T))
    (hres : resolveCredentialsPath s.fs p = .ok cp)
    (hcred : fsRead s.fs cp = some (.credJson c))
    (hcfg : getOAuthConfig c = .ok cfg) :
    (∀ d, T.expiry_date = some d → now + 5 * 60 * 1000 < d →
      (getAuthClient p orc now s).2.2.refreshCalls = 0 ∧
      (getAuthClient p orc now s).1 = .ok (clientFromDisk cfg T) ∧
      (clientFromDisk cfg T).credentials.access_token = T.access_token) ∧
    (T.expiry_date.getD 0 ≤ now + 5 * 60 * 1000 → strTruthy T.refresh_token = true →
      (getAuthClient p orc now s).2.2.refreshCalls = 1) := by
  constructor
  · intro d hd hlt
    have hnat : natTruthy T.expiry_date = true := by
      rw [hd]
      simp only [natTruthy, bne_iff_ne, ne_eq]
      omega
    have hnle : ¬ (T.expiry_date.getD 0 ≤ now + 5 * 60 * 1000) := by
      rw [hd]
      simp only [Option.getD_some]
      omega
    have hrf : refreshTokenIfNeeded p orc now (clientFromDisk cfg T)
        { s with authClient := some (clientFromDisk cfg T) } =
        (.ok (clientFromDisk cfg T),
          { s with authClient := some (clientFromDisk cfg T) }, ⟨0, 0⟩) := by
      unfold refreshTokenIfNeeded
      simp [clientFromDisk, hnat, hnle]
    have hload : loadFromDisk p orc now s =
        (.ok (clientFromDisk cfg T),
          { s with authClient := some (clientFromDisk cfg T) }, ⟨0, 0⟩) := by
      unfold loadFromDisk
      rw [htok]
      dsimp only
      rw [hres]
      dsimp only
      rw [hcred]
      dsimp only
      rw [hcfg]
      dsimp only
      rw [hrf]
    have hga : getAuthClient p orc now s =
        (.ok (clientFromDisk cfg T),
          { s with authClient := some (clientFromDisk cfg T) }, ⟨0, 0⟩) := by
      unfold getAuthClient
      rw [hcache]
      dsimp only
      unfold getAuthClientFallback
      rw [hload]
      rfl
    refine ⟨by rw [hga], by rw [hga], rfl⟩
  · intro hle hrt
    have hle' : (clientFromDisk cfg T).credentials.expiry_date.getD 0 ≤
        now + 5 * 60 * 1000 := hle
    have hrt' : strTruthy (clientFromDisk cfg T).credentials.refresh_token = true := hrt
    rcases hrf : refreshTokenIfNeeded p orc now (clientFromDisk cfg T)
        { s with authClient := some (clientFromDisk cfg T) } with ⟨r1, s1, t1⟩
    have ht1 : t1 = ⟨1, 0⟩ := by
      have h := refreshTokenIfNeeded_one_call p orc now (clientFromDisk cfg T)
        { s with authClient := some (clientFromDisk cfg T) } hle' hrt'
      rw [hrf] at h
      exact h
    subst ht1
    cases r1 with
    | ok c1 =>
      have hload : loadFromDisk p orc now s =
          (.ok c1, { s1 with authClient := some c1 }, ⟨1, 0⟩) := by
        unfold loadFromDisk
        rw [htok]
        dsimp only
        rw [hres]
        dsimp only
        rw [hcred]
        dsimp only
        rw [hcfg]
        dsimp only
        rw [hrf]
      unfold getAuthClient
      rw [hcache]
      dsimp only
      unfold getAuthClientFallback
      rw [hload]
      rfl
    | error e1 =>
      have hload : loadFromDisk p orc now s = (.error e1, s1, ⟨1, 0⟩) := by
        unfold loadFromDisk
        rw [htok]
        dsimp only
        rw [hres]
        dsimp only
        rw [hcred]
        dsimp only
        rw [hcfg]
        dsimp only
        rw [hrf]
      unfold getAuthClient
      rw [hcache]
      dsimp only
      unfold getAuthClientFallback
      rw [hload]
      dsimp only
      rcases hauth : authenticate p orc { s1 with authClient := none } with ⟨r3, s3, t3⟩
      have ht3 : t3.refreshCalls = 0 := by
        have h := authenticate_refreshCalls p orc { s1 with authClient := none }
        rw [hauth] at h
        exact h
      simp [tAdd, ht3]

/-- Fixture paths shared by the C1 witness scenarios. -/
def polPaths : Paths := ⟨"tok", "creds", "bundle"⟩

/-- Fixture fresh token (expiry far in the future) for the C1 witness. -/
def polToken : TokenData :=
  { type := "authorized_user", client_id := "ci", client_secret := "cs",
    refresh_token := some "RT", access_token := some "AT", expiry_date := some 10000000 }

/-- Fixture stale token (expiry in the past) for the C1 witness. -/
def polTokenStale : TokenData := { polToken with expiry_date := some 1 }

/-- Fixture client config for the C1 witness. -/
def polCfg : OAuthClientConfig :=
  { client_id := "id", client_secret := "sec", redirect_uris := ["http://localhost"] }

/-- Fixture oracle for the C1 witness. -/
def polOrc : Oracle :=
  { refresh := fun cr => .ok { cr with access_token := some "AT2", expiry_date := some 99999999 }
    flow := .error "no user present"
    revoke := .error () }

/-- Fixture state holding the fresh token for the C1 witness. -/
def polState : AMState :=
  { fs := [("tok", .tokenJson polToken), ("creds", .credJson { web := some polCfg })] }

/-- Fixture state holding the stale token for the C1 witness. -/
def polStateStale : AMState :=
  { fs := [("tok", .tokenJson polTokenStale), ("creds", .credJson { web := some polCfg })] }

/-- Witness for C1: on the fresh token no refresh call happens and the
persisted access token is returned; on the stale token exactly one
refresh call happens. -/
theorem getAuthClient_refresh_policy_witness :
    ((getAuthClient polPaths polOrc 0 polState).2.2.refreshCalls = 0 ∧
      (getAuthClient polPaths polOrc 0 polState).1 = .ok (clientFromDisk polCfg polToken) ∧
      (clientFromDisk polCfg polToken).credentials.access_token = polToken.access_token) ∧
    (getAuthClient polPaths polOrc 0 polStateStale).2.2.refreshCalls = 1 := by
  constructor
  · exact (getAuthClient_refresh_policy polPaths polOrc 0 polState polToken
      { web := some polCfg } polCfg "creds" rfl rfl rfl rfl rfl).1 10000000 rfl (by decide)
  · exact (getAuthClient_refresh_policy polPaths polOrc 0 polStateStale polTokenStale
      { web := some polCfg } polCfg "creds" rfl rfl rfl rfl rfl).2 (by decide) (by decide)

/-! Claim C3: the fallback chain of `getAuthClient`. -/

/-- C3: when the cached-handle fast path fails, the cache is cleared
and `getAuthClient`'s outcome is that of the disk-then-authenticate
fallback from the cleared state — the fast-path error is never
surfaced; when the disk path fails too, the outcome is that of
`authenticate`. -/
theorem getAuthClient_fallback_chain
    (p : Paths) (orc : Oracle) (now : Nat) (s : AMState) (cached : OAuth2Client)
    (e : AuthError) (s1 : AMState) (t1 : Trace)
    (hcache : s.authClient = some cached)
    (hfail : refreshTokenIfNeeded p orc now cached s = (.error e, s1, t1)) :
    s1.authClient = none ∧
    getAuthClient p orc now s = getAuthClientFallback p orc now s1 t1 ∧
    (∀ c s2 t2, loadFromDisk p orc now s1 = (.ok c, s2, t2) →
      (getAuthClient p orc now s).1 = .ok c) ∧
    (∀ e2 s2 t2, loadFromDisk p orc now s1 = (.error e2, s2, t2) →
      (getAuthClient p orc now s).1 = (authenticate p orc { s2 with authClient := none }).1) := by
  have hs1 : s1 = { s with authClient := none } :=
    refreshTokenIfNeeded_error_state p orc now cached s e s1 t1 hfail
  have hac : s1.authClient = none := by rw [hs1]
  have hnone : ({ s1 with authClient := none } : AMState) = s1 := by rw [hs1]
  have heq : getAuthClient p orc now s = getAuthClientFallback p orc now s1 t1 := by
    unfold getAuthClient
    rw [hcache]
    dsimp only
    rw [hfail]
    dsimp only
    rw [hnone]
  refine ⟨hac, heq, ?_, ?_⟩
  · intro c s2 t2 hl
    rw [heq]
    unfold getAuthClientFallback
    rw [hl]
  · intro e2 s2 t2 hl
    rw [heq]
    unfold getAuthClientFallback
    rw [hl]

/-- Fixture cached client (no expiry, no refresh token) for the C3
witness. -/
def chainCEClient : OAuth2Client := { credentials := {} }

/-- Fixture oracle for the C3 witness. -/
def chainCEOrc : Oracle :=
  { refresh := fun _ => .error (), flow := .error "no user", revoke := .error () }

/-- Witness for C3: a cached client whose refresh fails sends
`getAuthClient` down to `authenticate`'s outcome. -/
theorem getAuthClient_fallback_chain_witness :
    ({ fs := [], authClient := none } : AMState).authClient = none ∧
    (getAuthClient ⟨"tok", "creds", "bundle"⟩ chainCEOrc 0
        { fs := [], authClient := some chainCEClient }).1 =
      (authenticate ⟨"tok", "creds", "bundle"⟩ chainCEOrc
        { fs := [], authClient := none }).1 := by
  have h := getAuthClient_fallback_chain ⟨"tok", "creds", "bundle"⟩ chainCEOrc 0
    { fs := [], authClient := some chainCEClient } chainCEClient
    (.TokenExpiredError "Token refresh failed - please re-authenticate")
    { fs := [], authClient := none } ⟨0, 0⟩ rfl rfl
  exact ⟨h.1, h.2.2.2 (.AuthenticationError "Failed to read token file")
    { fs := [], authClient := none } ⟨0, 0⟩ rfl⟩

/-- Fixture oracle for the C9 witness: every external call fails. -/
def failingOrc : Oracle :=
  { refresh := fun _ => .error (), flow := .error "no user", revoke := .error () }

/-- Witness for C9: with no credential file and no token file,
`isAuthenticated` reports `false` instead of failing. -/
theorem isAuthenticated_never_fails_witness :
    (isAuthenticated ⟨"tok", "creds", "bundle"⟩ failingOrc 0
      { fs := [], authClient := none }).1 = false :=
  (isAuthenticated_never_fails ⟨"tok", "creds", "bundle"⟩ failingOrc 0
    { fs := [], authClient := none }).2 rfl rfl

/-! Claim C5: `revokeToken`. -/

/-- Fixture paths for the C5 scenarios. -/
def revPaths : Paths := ⟨"tok", "creds", "bundle"⟩

/-- Fixture cached client with a fresh token for the C5 scenarios. -/
def revClient : OAuth2Client :=
  { credentials := { access_token := some "AT", refresh_token := some "RT",
                     expiry_date := some 1000000 } }

/-- Fixture state for the C5 counterexample. -/
def revState : AMState := { fs := [], authClient := some revClient }

/-- Fixture oracle whose revoke call fails, for the C5 counterexample. -/
def revOrcFail : Oracle :=
  { refresh := fun _ => .error (), flow := .error "no user", revoke := .error () }

/-- C5 counterexample: `revokeToken` obtains a client, the provider's
revoke call fails, and the cached handle is NOT cleared — the clearing
is skipped by the jump to the catch block. -/
theorem revokeToken_keeps_cache_counterexample :
    (getAuthClient revPaths revOrcFail 0 revState).1 = .ok revClient ∧
    (revokeToken revPaths revOrcFail 0 revState).1 =
      .error (.AuthenticationError "Failed to revoke token") ∧
    (revokeToken revPaths revOrcFail 0 revState).2.1.authClient = some revClient := by
  refine ⟨rfl, rfl, rfl⟩

/-- C5 amended: when the revoke call succeeds the cached handle is
cleared and the token file unlinked, an unlink failure being swallowed
(the call still succeeds); when the revoke call fails, `revokeToken`
fails with `AuthenticationError` and the cached handle is left as
`getAuthClient` left it. -/
theorem revokeToken_behavior (p : Paths) (orc : Oracle) (now : Nat) (s : AMState) :
    ∀ c s1 t1, getAuthClient p orc now s = (.ok c, s1, t1) →
      (orc.revoke = .ok () →
        revokeToken p orc now s = (.ok (),
          { fs := if orc.unlinkFails then s1.fs else fsUnlink s1.fs p.TOKEN_PATH,
            authClient := none }, t1) ∧
        (orc.unlinkFails = false →
          fsRead (revokeToken p orc now s).2.1.fs p.TOKEN_PATH = none)) ∧
      (orc.revoke = .error () →
        revokeToken p orc now s =
          (.error (.AuthenticationError "Failed to revoke token"), s1, t1)) := by
  intro c s1 t1 hg
  constructor
  · intro hrev
    have hrv : revokeToken p orc now s = (.ok (),
        { fs := if orc.unlinkFails then s1.fs else fsUnlink s1.fs p.TOKEN_PATH,
          authClient := none }, t1) := by
      unfold revokeToken
      rw [hg]
      dsimp only
      rw [hrev]
      dsimp only
      cases hu : orc.unlinkFails <;> simp [hu]
    refine ⟨hrv, ?_⟩
    intro hu
    rw [hrv]
    dsimp only
    rw [hu]
    simp [fsRead_fsUnlink_self]
  · intro hrev
    unfold revokeToken
    rw [hg]
    dsimp only
    rw [hrev]

/-- Fixture oracle whose revoke succeeds but whose token-file unlink
fails, for the C5 witness. -/
def revOrcOk : Oracle :=
  { refresh := fun _ => .error (), flow := .error "no user", revoke := .ok ()
    unlinkFails := true }

/-- Fixture token record on disk for the C5 witness. -/
def revTok : TokenData :=
  { type := "authorized_user", client_id := "ci", client_secret := "cs",
    refresh_token := some "RT", access_token := some "AT", expiry_date := some 1000000 }

/-- Fixture state with a token file on disk for the C5 witness. -/
def revStateTok : AMState :=
  { fs := [("tok", .tokenJson revTok)], authClient := some revClient }

/-- Witness for the amended C5 theorem: a successful revoke with a
failing unlink still succeeds and clears the cached handle. -/
theorem revokeToken_behavior_witness :
    getAuthClient revPaths revOrcOk 0 revStateTok = (.ok revClient, revStateTok, ⟨0, 0⟩) ∧
    revOrcOk.revoke = .ok () ∧
    revokeToken revPaths revOrcOk 0 revStateTok =
      (.ok (), { fs := if revOrcOk.unlinkFails then revStateTok.fs
                       else fsUnlink revStateTok.fs revPaths.TOKEN_PATH,
                 authClient := none }, ⟨0, 0⟩) := by
  refine ⟨rfl, rfl, ?_⟩
  exact ((revokeToken_behavior revPaths revOrcOk 0 revStateTok revClient revStateTok
    ⟨0, 0⟩ rfl).1 rfl).1

/-! Claim C6: `authenticate`. -/

/-- Fixture client config for the C6 scenarios. -/
def authCfg6 : OAuthClientConfig :=
  { client_id := "id", client_secret := "sec", redirect_uris := ["http://localhost"] }

/-- Fixture paths for the C6 scenarios. -/
def authPaths6 : Paths := ⟨"tok", "creds", "bundle"⟩

/-- Fixture state (credentials file present, no token file) for the C6
scenarios. -/
def authState6 : AMState := { fs := [("creds", .credJson { web := some authCfg6 })] }

/-- Fixture oracle whose interactive flow yields a client carrying no
credentials, for the C6 counterexample. -/
def authOrc6 : Oracle :=
  { refresh := fun _ => .error (), flow := .ok { credentials := none }
    revoke := .error () }

/-- C6 counterexample: when the interactive flow returns a result not
carrying credentials, `authenticate` returns it successfully — nothing
is persisted and no `AuthenticationError` is raised. -/
theorem authenticate_no_credentials_counterexample :
    authOrc6.flow = .ok { credentials := none } ∧
    authenticate authPaths6 authOrc6 authState6 =
      (.ok (flowToClient { credentials := none }), authState6, ⟨0, 1⟩) ∧
    fsRead (authenticate authPaths6 authOrc6 authState6).2.1.fs
      authPaths6.TOKEN_PATH = none := by
  refine ⟨rfl, rfl, rfl⟩

/-- C6 amended: a credential-resolution failure is propagated
unmodified; a flow exception is wrapped as `Authentication failed:`;
a flow result carrying credentials is persisted (a token record
appears on disk), cached and returned — a save failure surfacing as
its own `AuthenticationError` with the handle already cached; a flow
result carrying no credentials is returned without persisting or
caching. -/
theorem authenticate_outcomes (p : Paths) (orc : Oracle) (s : AMState) :
    (∀ e, resolveCredentialsPath s.fs p = .error e →
      authenticate p orc s = (.error e, s, ⟨0, 0⟩)) ∧
    (∀ cp msg, resolveCredentialsPath s.fs p = .ok cp → orc.flow = .error msg →
      authenticate p orc s =
        (.error (.AuthenticationError ("Authentication failed: " ++ msg)), s, ⟨0, 1⟩)) ∧
    (∀ cp fc creds, resolveCredentialsPath s.fs p = .ok cp → orc.flow = .ok fc →
      fc.credentials = some creds →
      (∀ s2, saveToken p (flowToClient fc)
          { s with authClient := some (flowToClient fc) } = (.ok (), s2) →
        authenticate p orc s = (.ok (flowToClient fc), s2, ⟨0, 1⟩) ∧
        s2.authClient = some (flowToClient fc) ∧
        ∃ td : TokenData, fsRead s2.fs p.TOKEN_PATH = some (.tokenJson td)) ∧
      (∀ e2 s2, saveToken p (flowToClient fc)
          { s with authClient := some (flowToClient fc) } = (.error e2, s2) →
        authenticate p orc s = (.error e2, s2, ⟨0, 1⟩))) ∧
    (∀ cp fc, resolveCredentialsPath s.fs p = .ok cp → orc.flow = .ok fc →
      fc.credentials = none →
      authenticate p orc s = (.ok (s.authClient.getD (flowToClient fc)), s, ⟨0, 1⟩)) := by
  refine ⟨?_, ?_, ?_, ?_⟩
  · intro e hres
    unfold authenticate
    rw [hres]
  · intro cp msg hres hflow
    unfold authenticate
    rw [hres]
    dsimp only
    rw [hflow]
  · intro cp fc creds hres hflow hcred
    constructor
    · intro s2 hsv
      have hauth : authenticate p orc s = (.ok (flowToClient fc), s2, ⟨0, 1⟩) := by
        unfold authenticate
        rw [hres]
        dsimp only
        rw [hflow]
        dsimp only
        rw [hcred]
        dsimp only
        rw [hsv]
      refine ⟨hauth, ?_, ?_⟩
      · have h := saveToken_authClient p (flowToClient fc)
          { s with authClient := some (flowToClient fc) }
        rw [hsv] at h
        exact h
      · obtain ⟨td, hseq, _⟩ := saveToken_ok_fs p (flowToClient fc)
          { s with authClient := some (flowToClient fc) } () s2 hsv
        subst hseq
        exact ⟨td, fsRead_fsWrite_self _ _ _⟩
    · intro e2 s2 hsv
      unfold authenticate
      rw [hres]
      dsimp only
      rw [hflow]
      dsimp only
      rw [hcred]
      dsimp only
      rw [hsv]
  · intro cp fc hres hflow hcred
    unfold authenticate
    rw [hres]
    dsimp only
    rw [hflow]
    dsimp only
    rw [hcred]

/-- Fixture credentials produced by the flow for the C6 witness. -/
def w6Creds : Credentials :=
  { access_token := some "AT", refresh_token := some "RT", expiry_date := some 777 }

/-- Fixture flow client for the C6 witness. -/
def w6FC : FlowClient :=
  { client_id := "id", client_secret := "sec", redirect_uri := "http://localhost",
    credentials := some w6Creds }

/-- Fixture oracle whose flow yields `w6FC`, for the C6 witness. -/
def w6Orc : Oracle :=
  { refresh := fun _ => .error (), flow := .ok w6FC, revoke := .error () }

/-- The token record written by the C6 witness scenario. -/
def w6TD : TokenData :=
  { type := "authorized_user", client_id := "id", client_secret := "sec",
    refresh_token := some "RT", access_token := some "AT", expiry_date := some 777 }

/-- Witness for the amended C6 theorem: a flow result carrying
credentials is persisted, cached and returned. -/
theorem authenticate_outcomes_witness :
    resolveCredentialsPath authState6.fs authPaths6 = .ok "creds" ∧
    w6Orc.flow = .ok w6FC ∧
    w6FC.credentials = some w6Creds ∧
    authenticate authPaths6 w6Orc authState6 =
      (.ok (flowToClient w6FC),
        { fs := fsWrite authState6.fs "tok" (.tokenJson w6TD),
          authClient := some (flowToClient w6FC) }, ⟨0, 1⟩) := by
  refine ⟨rfl, rfl, rfl, ?_⟩
  exact (((authenticate_outcomes authPaths6 w6Orc authState6).2.2.1 "creds" w6FC w6Creds
    rfl rfl rfl).1
    { fs := fsWrite authState6.fs "tok" (.tokenJson w6TD),
      authClient := some (flowToClient w6FC) } rfl).1

/-! Claim C8: the on-disk refresh-token invariant. -/

/-- The claimed data-model invariant: whenever a token record sits on
disk at the token path, its `refresh_token` is present and non-empty. -/
def tokenFileInv (p : Paths) (fs : FS) : Prop :=
  ∀ t, fsRead fs p.TOKEN_PATH = some (.tokenJson t) → strTruthy t.refresh_token = true

/-- The operations of the session manager, each carrying the outcomes
of its external calls. -/
inductive Op where
  | getClient (orc : Oracle) (now : Nat)
  | interactiveAuth (orc : Oracle)
  | revoke (orc : Oracle) (now : Nat)
  | checkAuth (orc : Oracle) (now : Nat)

/-- One operation of the session manager, keeping only the state. -/
def step (p : Paths) (s : AMState) : Op → AMState
  | .getClient orc now => (getAuthClient p orc now s).2.1
  | .interactiveAuth orc => (authenticate p orc s).2.1
  | .revoke orc now => (revokeToken p orc now s).2.1
  | .checkAuth orc now => (isAuthenticated p orc now s).2.1

/-- An oracle whose interactive flow, when it yields credentials,
yields a truthy refresh token. -/
def goodOracle (orc : Oracle) : Prop :=
  ∀ fc creds, orc.flow = .ok fc → fc.credentials = some creds →
    strTruthy creds.refresh_token = true

/-- An operation whose oracle is good. -/
def goodOp : Op → Prop
  | .getClient orc _ => goodOracle orc
  | .interactiveAuth orc => goodOracle orc
  | .revoke orc _ => goodOracle orc
  | .checkAuth orc _ => goodOracle orc

/-- A failing `saveToken` leaves the state untouched. -/
theorem saveToken_error_state (p : Paths) (client : OAuth2Client) (s : AMState)
    (e : AuthError) (s2 : AMState) (h : saveToken p client s = (.error e, s2)) :
    s2 = s := by
  unfold saveToken at h
  split at h
  · exact (congrArg (fun x => x.2) h).symm
  · split at h
    · split at h
      · exact (congrArg (fun x => x.2) h).symm
      · simp at h
    · exact (congrArg (fun x => x.2) h).symm

/-- `updateStoredToken` preserves the invariant: it copies
`refresh_token` from the record it read. -/
theorem updateStoredToken_inv (p : Paths) (auth : OAuth2Client) (s : AMState)
    (h : tokenFileInv p s.fs) : tokenFileInv p (updateStoredToken p auth s).2.fs := by
  unfold updateStoredToken
  split
  · next T heq =>
    dsimp only
    intro t ht
    rw [fsRead_fsWrite_self] at ht
    injection ht with ht1
    injection ht1 with ht2
    rw [← ht2]
    exact h T heq
  · exact h

/-- `saveToken` preserves the invariant when the client it persists
carries a truthy refresh token. -/
theorem saveToken_inv (p : Paths) (client : OAuth2Client) (s : AMState)
    (hrt : strTruthy client.credentials.refresh_token = true)
    (h : tokenFileInv p s.fs) : tokenFileInv p (saveToken p client s).2.fs := by
  rcases hs : saveToken p client s with ⟨r, s2⟩
  cases r with
  | ok u =>
    obtain ⟨td, hseq, htd⟩ := saveToken_ok_fs p client s u s2 hs
    subst hseq
    intro t ht
    rw [fsRead_fsWrite_self] at ht
    injection ht with ht1
    injection ht1 with ht2
    rw [← ht2, htd]
    exact hrt
  | error e =>
    have hse := saveToken_error_state p client s e s2 hs
    subst hse
    exact h

/-- `refreshTokenIfNeeded` preserves the invariant. -/
theorem refreshTokenIfNeeded_inv (p : Paths) (orc : Oracle) (now : Nat)
    (auth : OAuth2Client) (s : AMState) (h : tokenFileInv p s.fs) :
    tokenFileInv p (refreshTokenIfNeeded p orc now auth s).2.1.fs := by
  unfold refreshTokenIfNeeded
  dsimp only
  split
  · split
    · exact h
    · rcases href : orc.refresh auth.credentials with u | nc
      · exact h
      · dsimp only
        rcases hupd : updateStoredToken p { auth with credentials := nc } s with ⟨r2, s2⟩
        cases r2 with
        | ok u2 =>
          have h2 := updateStoredToken_inv p { auth with credentials := nc } s h
          rw [hupd] at h2
          exact h2
        | error e2 => exact h
  · exact h

/-- `authenticate` preserves the invariant under a good oracle. -/
theorem authenticate_inv (p : Paths) (orc : Oracle) (s : AMState)
    (hgood : goodOracle orc) (h : tokenFileInv p s.fs) :
    tokenFileInv p (authenticate p orc s).2.1.fs := by
  unfold authenticate
  split
  · exact h
  · rcases hflow : orc.flow with msg | fc
    · exact h
    · dsimp only
      rcases hcred : fc.credentials with _ | creds
      · exact h
      · dsimp only
        rcases hsv : saveToken p (flowToClient fc)
            { s with authClient := some (flowToClient fc) } with ⟨r2, s2⟩
        have hrt : strTruthy (flowToClient fc).credentials.refresh_token = true := by
          have hfc : (flowToClient fc).credentials = creds := by
            unfold flowToClient
            rw [hcred]
            rfl
          rw [hfc]
          exact hgood fc creds hflow hcred
        cases r2 with
        | ok u2 =>
          have h2 := saveToken_inv p (flowToClient fc)
            { s with authClient := some (flowToClient fc) } hrt h
          rw [hsv] at h2
          exact h2
        | error e2 =>
          have hse := saveToken_error_state p (flowToClient fc)
            { s with authClient := some (flowToClient fc) } e2 s2 hsv
          subst hse
          exact h

/-- The disk path of `getAuthClient` preserves the invariant. -/
theorem loadFromDisk_inv (p : Paths) (orc : Oracle) (now : Nat) (s : AMState)
    (h : tokenFileInv p s.fs) : tokenFileInv p (loadFromDisk p orc now s).2.1.fs := by
  unfold loadFromDisk
  rcases htk : fsRead s.fs p.TOKEN_PATH with _ | fc
  · exact h
  · cases fc with
    | credJson c0 => exact h
    | malformed => exact h
    | tokenJson tokenData =>
      dsimp only
      rcases hrp : resolveCredentialsPath s.fs p with e | cp
      · exact h
      · dsimp only
        rcases hcr : fsRead s.fs cp with _ | fc2
        · exact h
        · cases fc2 with
          | tokenJson t2 => exact h
          | malformed => exact h
          | credJson credentials =>
            dsimp only
            rcases hcf : getOAuthConfig credentials with e2 | oauthConfig
            · exact h
            · dsimp only
              rcases hrf : refreshTokenIfNeeded p orc now
                  (clientFromDisk oauthConfig tokenData)
                  { s with authClient := some (clientFromDisk oauthConfig tokenData) }
                  with ⟨r1, s1, t1⟩
              have h1 := refreshTokenIfNeeded_inv p orc now
                (clientFromDisk oauthConfig tokenData)
                { s with authClient := some (clientFromDisk oauthConfig tokenData) } h
              rw [hrf] at h1
              cases r1 with
              | ok c1 => exact h1
              | error e1 => exact h1

/-- The fallback tail of `getAuthClient` preserves the invariant under
a good oracle. -/
theorem getAuthClientFallback_inv (p : Paths) (orc : Oracle) (now : Nat)
    (s : AMState) (t0 : Trace) (hgood : goodOracle orc) (h : tokenFileInv p s.fs) :
    tokenFileInv p (getAuthClientFallback p orc now s t0).2.1.fs := by
  unfold getAuthClientFallback
  rcases hld : loadFromDisk p orc now s with ⟨r1, s1, t1⟩
  have h1 := loadFromDisk_inv p orc now s h
  rw [hld] at h1
  cases r1 with
  | ok c1 => exact h1
  | error e1 =>
    dsimp only
    rcases hauth : authenticate p orc { s1 with authClient := none } with ⟨r2, s2, t2⟩
    have h2 := authenticate_inv p orc { s1 with authClient := none } hgood h1
    rw [hauth] at h2
    exact h2

/-- `getAuthClient` preserves the invariant under a good oracle. -/
theorem getAuthClient_inv (p : Paths) (orc : Oracle) (now : Nat) (s : AMState)
    (hgood : goodOracle orc) (h : tokenFileInv p s.fs) :
    tokenFileInv p (getAuthClient p orc now s).2.1.fs := by
  unfold getAuthClient
  split
  · next cached _ =>
    rcases hrf : refreshTokenIfNeeded p orc now cached s with ⟨r1, s1, t1⟩
    have h1 := refreshTokenIfNeeded_inv p orc now cached s h
    rw [hrf] at h1
    cases r1 with
    | ok c1 => exact h1
    | error e1 => exact getAuthClientFallback_inv p orc now _ t1 hgood h1
  · exact getAuthClientFallback_inv p orc now s ⟨0, 0⟩ hgood h

/-- `revokeToken` preserves the invariant under a good oracle. -/
theorem revokeToken_inv (p : Paths) (orc : Oracle) (now : Nat) (s : AMState)
    (hgood : goodOracle orc) (h : tokenFileInv p s.fs) :
    tokenFileInv p (revokeToken p orc now s).2.1.fs := by
  unfold revokeToken
  rcases hg : getAuthClient p orc now s with ⟨r1, s1, t1⟩
  have h1 := getAuthClient_inv p orc now s hgood h
  rw [hg] at h1
  cases r1 with
  | error e1 => exact h1
  | ok c1 =>
    rcases orc.revoke with u | u
    · exact h1
    · cases orc.unlinkFails
      · show tokenFileInv p (fsUnlink s1.fs p.TOKEN_PATH)
        intro t ht
        rw [fsRead_fsUnlink_self] at ht
        cases ht
      · exact h1

/-- `isAuthenticated` preserves the invariant under a good oracle. -/
theorem isAuthenticated_inv (p : Paths) (orc : Oracle) (now : Nat) (s : AMState)
    (hgood : goodOracle orc) (h : tokenFileInv p s.fs) :
    tokenFileInv p (isAuthenticated p orc now s).2.1.fs := by
  unfold isAuthenticated
  rcases hg : getAuthClient p orc now s with ⟨r1, s1, t1⟩
  have h1 := getAuthClient_inv p orc now s hgood h
  rw [hg] at h1
  cases r1 with
  | ok c1 => exact h1
  | error e1 => exact h1

/-- A single good operation preserves the invariant. -/
theorem step_inv (p : Paths) (s : AMState) (op : Op) (hgood : goodOp op)
    (h : tokenFileInv p s.fs) : tokenFileInv p (step p s op).fs := by
  cases op with
  | getClient orc now => exact getAuthClient_inv p orc now s hgood h
  | interactiveAuth orc => exact authenticate_inv p orc s hgood h
  | revoke orc now => exact revokeToken_inv p orc now s hgood h
  | checkAuth orc now => exact isAuthenticated_inv p orc now s hgood h

/-- C8 amended: along every sequence of session-manager operations
whose interactive-flow results carry a truthy refresh token whenever
they carry credentials, a token record on disk always has a present,
non-empty `refresh_token`. -/
theorem tokenFileInv_preserved (p : Paths) (s : AMState) (ops : List Op)
    (hgood : ∀ op ∈ ops, goodOp op) (hinv : tokenFileInv p s.fs) :
    tokenFileInv p (ops.foldl (step p) s).fs := by
  induction ops generalizing s with
  | nil => exact hinv
  | cons op ops ih =>
    exact ih (step p s op) (fun o ho => hgood o (List.mem_cons_of_mem _ ho))
      (step_inv p s op (hgood op (List.mem_cons_self op ops)) hinv)

/-- Fixture client config for the C8 scenarios. -/
def c8Cfg : OAuthClientConfig :=
  { client_id := "id", client_secret := "sec", redirect_uris := ["http://localhost"] }

/-- Fixture paths for the C8 scenarios. -/
def c8Paths : Paths := ⟨"tok", "creds", "bundle"⟩

/-- Fixture state (credentials file, no token file) for the C8
scenarios. -/
def c8State : AMState := { fs := [("creds", .credJson { web := some c8Cfg })] }

/-- Fixture oracle whose flow yields credentials WITHOUT a refresh
token, for the C8 counterexample. -/
def c8BadOrc : Oracle :=
  { refresh := fun _ => .error ()
    flow := .ok { credentials := some { access_token := some "AT", refresh_token := none,
                                        expiry_date := some 999 } }
    revoke := .error () }

/-- The refresh-token-less record written by the C8 counterexample. -/
def c8BadTD : TokenData :=
  { type := "authorized_user", client_id := "id", client_secret := "sec",
    refresh_token := none, access_token := some "AT", expiry_date := some 999 }

/-- C8 counterexample: `saveToken` writes
`client.credentials.refresh_token!` unchecked, so one authentication
whose flow result lacks a refresh token leaves a token record on disk
with `refresh_token` absent — the claimed invariant is violated. -/
theorem tokenFileInv_violated_counterexample :
    tokenFileInv c8Paths c8State.fs ∧
    fsRead (step c8Paths c8State (.interactiveAuth c8BadOrc)).fs c8Paths.TOKEN_PATH =
      some (.tokenJson c8BadTD) ∧
    ¬ tokenFileInv c8Paths (step c8Paths c8State (.interactiveAuth c8BadOrc)).fs := by
  refine ⟨?_, rfl, ?_⟩
  · intro t ht
    have hn : fsRead c8State.fs c8Paths.TOKEN_PATH = none := rfl
    rw [hn] at ht
    cases ht
  · intro hinv
    have h := hinv c8BadTD rfl
    simp [c8BadTD, strTruthy] at h

/-- Fixture good credentials (truthy refresh token) for the C8
witness. -/
def c8GoodCreds : Credentials :=
  { access_token := some "AT", refresh_token := some "RT", expiry_date := some 999 }

/-- Fixture flow result for the C8 witness. -/
def c8FC : FlowClient := { credentials := some c8GoodCreds }

/-- Fixture good oracle for the C8 witness: its flow yields a truthy
refresh token. -/
def c8GoodOrc : Oracle :=
  { refresh := fun cr => .ok { cr with access_token := some "AT2" }
    flow := .ok c8FC
    revoke := .ok () }

/-- Witness for the amended C8 theorem on a concrete operation
sequence: authenticate, then get a client, then revoke. -/
theorem tokenFileInv_preserved_witness :
    tokenFileInv c8Paths
      (([Op.interactiveAuth c8GoodOrc, Op.getClient c8GoodOrc 0,
         Op.revoke c8GoodOrc 0]).foldl (step c8Paths) c8State).fs := by
  have hg : goodOracle c8GoodOrc := by
    intro fc creds h1 h2
    have h1' : (Except.ok c8FC : Except String FlowClient) = Except.ok fc := h1
    injection h1' with h1e
    rw [← h1e] at h2
    have h2' : some c8GoodCreds = some creds := h2
    injection h2' with h2e
    rw [← h2e]
    rfl
  apply tokenFileInv_preserved c8Paths c8State
  · intro op hop
    simp only [List.mem_cons, List.not_mem_nil, or_false] at hop
    rcases hop with h | h | h
    · rw [h]; exact hg
    · rw [h]; exact hg
    · rw [h]; exact hg
  · intro t ht
    have hn : fsRead c8State.fs c8Paths.TOKEN_PATH = none := rfl
    rw [hn] at ht
    cases ht

/-- Fixture client lacking a refresh token for the C7 witness. -/
def c7Client : OAuth2Client := { credentials := { access_token := some "AT" } }

/-- Fixture oracle for the C7 witness. -/
def c7Orc : Oracle :=
  { refresh := fun _ => .error (), flow := .error "no user", revoke := .error () }

/-- Witness for C7 at a concrete refresh-token-less handle. -/
theorem refreshTokenIfNeeded_no_refresh_token_witness :
    c7Client.credentials.expiry_date.getD 0 ≤ 0 + 5 * 60 * 1000 ∧
    strTruthy c7Client.credentials.refresh_token = false ∧
    refreshTokenIfNeeded ⟨"tok", "creds", "bundle"⟩ c7Orc 0 c7Client
        { fs := [], authClient := some c7Client } =
      (.error (.TokenExpiredError "Token refresh failed - please re-authenticate"),
        { fs := [], authClient := none }, ⟨0, 0⟩) := by
  refine ⟨by decide, rfl, ?_⟩
  exact refreshTokenIfNeeded_no_refresh_token ⟨"tok", "creds", "bundle"⟩ c7Orc 0 c7Client
    { fs := [], authClient := some c7Client } (by decide) rfl

/-- Fixture "web" client config for the C10 witness. -/
def c10Web : OAuthClientConfig :=
  { client_id := "wid", client_secret := "wsec", redirect_uris := ["u"] }

/-- Fixture "installed" client config for the C10 witness. -/
def c10Inst : OAuthClientConfig :=
  { client_id := "iid", client_secret := "isec", redirect_uris := ["v"] }

/-- Fixture paths for the C10 witness. -/
def c10P : Paths := ⟨"t", "c", "b"⟩

/-- Fixture client for the C10 witness. -/
def c10Client : OAuth2Client :=
  { credentials := { access_token := some "A", refresh_token := some "R",
                     expiry_date := some 5 } }

/-- Fixture state whose credentials file carries both "web" and
"installed" configs, for the C10 witness. -/
def c10State : AMState :=
  { fs := [("c", .credJson { web := some c10Web, installed := some c10Inst })] }

/-- Witness for C10: with both configs present the "web" one wins, both
for config extraction and for the persisted client identity; with
neither present, extraction fails. -/
theorem getOAuthConfig_web_precedence_witness :
    getOAuthConfig { web := some c10Web, installed := some c10Inst } = .ok c10Web ∧
    getOAuthConfig { web := none, installed := none } =
      .error (.AuthenticationError
        "Invalid credentials.json - must contain web or installed key") ∧
    saveToken c10P c10Client c10State =
      (.ok (), { c10State with fs := fsWrite c10State.fs c10P.TOKEN_PATH (.tokenJson { type := "authorized_user", client_id := c10Web.client_id, client_secret := c10Web.client_secret, refresh_token := c10Client.credentials.refresh_token, access_token := jsStrOrUndef c10Client.credentials.access_token, expiry_date := jsNatOrUndef c10Client.credentials.expiry_date }) }) := by
  refine ⟨?_, ?_, ?_⟩
  · exact (getOAuthConfig_web_precedence { web := some c10Web, installed := some c10Inst }
      c10Web c10P c10Client c10State "c").1 rfl
  · exact (getOAuthConfig_web_precedence { web := none, installed := none }
      c10Web c10P c10Client c10State "c").2.1 rfl rfl
  · exact (getOAuthConfig_web_precedence { web := some c10Web, installed := some c10Inst }
      c10Web c10P c10Client c10State "c").2.2 rfl rfl rfl

end YTAuth
